import Mathlib

/-!
# Verification of the Veo3 multi-account orchestration core

Shallow embedding of the orchestration layer of the repository:
token pool round-robin selection (`getNextToken`, src/server.js),
request deduplication (`isDuplicateRequest`, src/server.js),
rate-limited request execution (`axiosWithRetry`, src/server.js),
the single-operation status poller (`pollOperation`, src/unnamed/part_001),
the batch poll loop and scene/clip update of `runAutoLogger`
(src/mẫu/index.js), and the dedup interaction of the
`/api/veo3/generate-start-end` handler (src/server.js).

Network I/O is modelled by scripting the sequence of provider responses as
an explicit list; timers are modelled by recording each requested sleep
duration; the JS `Date.now()` clock is an explicit integer argument.
-/

namespace Veo

/-! ## Token pool (src/server.js lines 64-84)

`let tokenPool = []; let currentTokenIndex = 0;` with
`getNextToken` returning `tokenPool[currentTokenIndex]` and advancing the
cursor mod the pool length, falling back to the ambient global session when
the pool is empty.  The pool is populated only by the load endpoint, which
resets the cursor to 0 (src/server.js lines 1582-1635). -/

structure Token where
  name : String
  cookies : String
  sessionToken : String
  accessToken : String
  deriving Repr, DecidableEq

structure PoolState where
  tokenPool : List Token
  currentTokenIndex : Nat
  deriving Repr, DecidableEq

/-- `getNextToken` from src/server.js.  `fallback` is the implicit record
built from the global `session` when the pool is empty.  A JS out-of-range
read would yield `undefined`; it never occurs because the cursor is reset
to 0 on load and otherwise kept below the pool length, so `getD fallback`
is only a totalisation. -/
def getNextToken (fallback : Token) (s : PoolState) : Token × PoolState :=
  if s.tokenPool.length = 0 then
    (fallback, s)
  else
    let token := (s.tokenPool.get? s.currentTokenIndex).getD fallback
    (token, { s with currentTokenIndex := (s.currentTokenIndex + 1) % s.tokenPool.length })

/-- State after `n` successive `getNextToken` calls. -/
def poolAfter (fallback : Token) (s : PoolState) : Nat → PoolState
  | 0 => s
  | n + 1 => (getNextToken fallback (poolAfter fallback s n)).2

/-- Token returned by the `(n+1)`-th call (0-indexed `n`). -/
def nthToken (fallback : Token) (s : PoolState) (n : Nat) : Token :=
  (getNextToken fallback (poolAfter fallback s n)).1

/-! ## Request deduplicator (src/server.js lines 102-128)

`recentRequests : Map hash -> timestamp`, 3000 ms window.  The map is
modelled as an association list in insertion order (JS `Map` preserves
insertion order); `Map.set` on a fresh key appends. -/

abbrev DedupMap := List (String × Int)

/-- The purge pass of `isDuplicateRequest`: delete every entry with
`now - timestamp > REQUEST_DEDUP_WINDOW_MS` (strictly older than 3000 ms). -/
def purgeOld (now : Int) (m : DedupMap) : DedupMap :=
  m.filter (fun e => !(now - e.2 > 3000))

/-- `isDuplicateRequest` from src/server.js: purge, then report a hit
without refreshing the timestamp, else record the hash at `now`. -/
def isDuplicateRequest (requestHash : String) (now : Int) (m : DedupMap) :
    Bool × DedupMap :=
  let m' := purgeOld now m
  if m'.any (fun e => e.1 = requestHash) then
    (true, m')
  else
    (false, m' ++ [(requestHash, now)])

/-! ## Rate-limited request executor (src/server.js lines 251-317)

`axiosWithRetry(config, retryCount = 0, maxRetries = 5, accountName, proxyString)`.
The sequence of provider responses is scripted as a list (one entry per
attempt).  Axios resolves iff the status is 2xx (default `validateStatus`)
and otherwise throws an error carrying the response.  Each backoff sleep is
recorded in a wait list.  Proxy parsing and log lines are omitted: they do
not affect control flow or the counters. -/

structure Resp where
  status : Nat
  /-- parsed `Retry-After` header, in seconds; `none` when the header is
  absent (the JS falsy branch of `retryAfter ? ... : backoffMs`). -/
  retryAfterSec : Option Nat
  body : String
  deriving Repr, DecidableEq

def is2xx (r : Resp) : Bool := 200 ≤ r.status && r.status < 300

structure AccountStats where
  requests : Nat
  rateLimited : Nat
  deriving Repr, DecidableEq

structure RateLimitStats where
  totalRequests : Nat
  rateLimitedRequests : Nat
  retriedRequests : Nat
  failedAfterRetry : Nat
  tokenUsageByAccount : List (String × AccountStats)
  deriving Repr, DecidableEq

/-- The per-account branch of the 429 handler: create a zeroed record on
first sight of the account, then `rateLimited++`. -/
def bumpAccountRateLimited (accountName : String)
    (l : List (String × AccountStats)) : List (String × AccountStats) :=
  if l.any (fun e => e.1 = accountName) then
    l.map fun e =>
      if e.1 = accountName then (e.1, { e.2 with rateLimited := e.2.rateLimited + 1 }) else e
  else
    l ++ [(accountName, { requests := 0, rateLimited := 1 })]

inductive ReqOutcome
  /-- axios resolved: the response is returned. -/
  | ok (r : Resp)
  /-- `throw new Error("API rate limit exceeded after N retries")`. -/
  | rateLimitError (maxRetries : Nat)
  /-- any non-2xx other than a retried 429: the axios error is rethrown
  immediately, response (status and body) attached. -/
  | httpError (r : Resp)
  /-- model artefact: the scripted response list was exhausted. -/
  | outOfScript
  deriving Repr, DecidableEq

def axiosWithRetry : List Resp → Nat → Nat → String → RateLimitStats → List Nat →
    ReqOutcome × RateLimitStats × List Nat
  | [], _, _, _, stats, waits => (.outOfScript, stats, waits)
  | r :: rest, retryCount, maxRetries, accountName, stats, waits =>
    let stats :=
      if retryCount = 0 then { stats with totalRequests := stats.totalRequests + 1 } else stats
    if is2xx r then
      (.ok r, stats, waits)
    else if r.status = 429 then
      let stats :=
        if retryCount = 0 then
          { stats with rateLimitedRequests := stats.rateLimitedRequests + 1 }
        else stats
      let stats :=
        { stats with
            retriedRequests := stats.retriedRequests + 1
            tokenUsageByAccount := bumpAccountRateLimited accountName stats.tokenUsageByAccount }
      if retryCount < maxRetries then
        let backoffMs := min (1000 * 2 ^ retryCount) 32000
        let waitMs :=
          match r.retryAfterSec with
          | some ra => ra * 1000
          | none => backoffMs
        axiosWithRetry rest (retryCount + 1) maxRetries accountName stats (waits ++ [waitMs])
      else
        (.rateLimitError maxRetries,
          { stats with failedAfterRetry := stats.failedAfterRetry + 1 }, waits)
    else
      (.httpError r, stats, waits)

/-! ## Single-operation status poller (src/unnamed/part_001, `pollOperation`)

`pollOperation(opId, { intervalMs = 2500, maxTries = 120, tokenName })`.
Each poll tick's `checkStatus` answer is scripted; sleeps are recorded. -/

structure OpView where
  status : String
  /-- `op.operation?.error?.message || ''` -/
  errorMsg : String
  deriving Repr, DecidableEq

inductive PollTick
  /-- `!res.success && res.tokenExpired` -/
  | tokenExpired
  /-- a payload with no `operations[0]` -/
  | noOp
  | op (o : OpView)
  deriving Repr, DecidableEq

inductive PollResult
  | success (o : OpView)
  /-- `throw new Error("Token expired - please refresh")` -/
  | errTokenExpired
  /-- `throw new Error("Invalid status payload")` -/
  | errInvalidPayload
  /-- `throw new Error("Generation failed: ...")` -/
  | errFailed (msg : String)
  /-- `throw new Error("Timeout polling status")` after `maxTries` ticks -/
  | errTimeout
  /-- model artefact: scripted ticks exhausted -/
  | outOfScript
  deriving Repr, DecidableEq

/-- `errorMsg.includes('HIGH_TRAFFIC')` -/
def containsHighTraffic (msg : String) : Bool :=
  decide (List.IsInfix "HIGH_TRAFFIC".toList msg.toList)

def isSuccessStatus (s : String) : Bool :=
  s = "SUCCESSFUL" || s = "MEDIA_GENERATION_STATUS_SUCCESSFUL"

def isFailedStatus (s : String) : Bool :=
  s = "FAILED" || s = "MEDIA_GENERATION_STATUS_FAILED"

/-- The `for (let i = 0; i < maxTries; i++)` loop of `pollOperation`;
`fuel` is the number of remaining iterations. -/
def pollOperationGo (intervalMs : Nat) :
    Nat → List PollTick → List Nat → PollResult × List Nat
  | 0, _, waits => (.errTimeout, waits)
  | _ + 1, [], waits => (.outOfScript, waits)
  | fuel + 1, t :: rest, waits =>
    match t with
    | .tokenExpired => (.errTokenExpired, waits)
    | .noOp => (.errInvalidPayload, waits)
    | .op o =>
      if isSuccessStatus o.status then
        (.success o, waits)
      else if isFailedStatus o.status then
        if containsHighTraffic o.errorMsg then
          pollOperationGo intervalMs fuel rest (waits ++ [intervalMs * 2])
        else
          (.errFailed o.errorMsg, waits)
      else
        pollOperationGo intervalMs fuel rest (waits ++ [intervalMs])

def pollOperation (ticks : List PollTick) (intervalMs : Nat) (maxTries : Nat) :
    PollResult × List Nat :=
  pollOperationGo intervalMs maxTries ticks []

/-! ## Batch poll loop of `runAutoLogger` (src/mẫu/index.js lines 400-506)

`while (pollAttempts < maxPoll && !pollDone)` over the operations of one
job (`totalVariants = resultOps.length`).  Each tick's provider answer is
scripted.  The per-tick `forEach` both tallies statuses and updates the
first-success selection and the video-URL collection.  The re-mapping of
`resultOps` from the response is omitted: it only shapes the next request
body and is read by nothing the loop's control flow or results depend on. -/

structure BatchOp where
  status : String
  mediaGenerationId : Option String
  /-- `op.operation?.metadata?.video?.fifeUrl` -/
  fifeUrl : Option String
  /-- failure reason text carried in the provider payload; the batch loop
  never inspects it. -/
  errorMsg : String
  deriving Repr, DecidableEq

structure BatchSel where
  selectedMediaId : Option String
  videoUrls : List String
  deriving Repr, DecidableEq

/-- One iteration of the per-tick `forEach` body, restricted to the
selection/URL updates. -/
def processOp (s : BatchSel) (o : BatchOp) : BatchSel :=
  if o.status = "MEDIA_GENERATION_STATUS_SUCCESSFUL" then
    match o.mediaGenerationId with
    | some mid =>
      let s1 :=
        if s.selectedMediaId = none then { s with selectedMediaId := some mid } else s
      match o.fifeUrl with
      | some u =>
        if u ∈ s1.videoUrls then s1 else { s1 with videoUrls := s1.videoUrls ++ [u] }
      | none => s1
    | none => s
  else s

def processOps (s : BatchSel) (ops : List BatchOp) : BatchSel :=
  ops.foldl processOp s

/-- `successCountPoll` of one tick. -/
def tickSuccessCount (ops : List BatchOp) : Nat :=
  (ops.filter fun o => o.status = "MEDIA_GENERATION_STATUS_SUCCESSFUL").length

/-- `failedCount` of one tick. -/
def tickFailedCount (ops : List BatchOp) : Nat :=
  (ops.filter fun o => o.status = "MEDIA_GENERATION_STATUS_FAILED").length

inductive BatchTick
  /-- the poll HTTP call threw; the `catch` only logs. -/
  | err
  /-- a response without an `operations` array; the guard skips the body. -/
  | noOps
  | ops (l : List BatchOp)
  deriving Repr, DecidableEq

structure BatchLoopState where
  pollAttempts : Nat
  pollDone : Bool
  sel : BatchSel
  /-- recorded sleeps between poll attempts -/
  waits : List Nat
  deriving Repr, DecidableEq

/-- One iteration body of the batch poll loop: `pollAttempts++`, then the
tick processing (tally, selection, `pollDone` update). -/
def batchTickStep (totalVariants : Nat) (st : BatchLoopState) : BatchTick → BatchLoopState
  | .err => { st with pollAttempts := st.pollAttempts + 1 }
  | .noOps => { st with pollAttempts := st.pollAttempts + 1 }
  | .ops l =>
    let st := { st with pollAttempts := st.pollAttempts + 1 }
    let completedCount := tickSuccessCount l + tickFailedCount l
    { st with
        sel := processOps st.sel l
        pollDone := if completedCount ≥ totalVariants then true else st.pollDone }

/-- The batch poll loop, driven by the scripted ticks.  The trailing
`sleep(10000)` runs only when the loop is about to iterate again.  If the
script runs out the model stops with the current state (a real run would
keep polling). -/
def runBatchPoll (totalVariants maxPoll : Nat) :
    List BatchTick → BatchLoopState → BatchLoopState
  | [], st => st
  | t :: rest, st =>
    if st.pollAttempts < maxPoll && !st.pollDone then
      let st := batchTickStep totalVariants st t
      let st :=
        if !st.pollDone && st.pollAttempts < maxPoll then
          { st with waits := st.waits ++ [10000] }
        else st
      runBatchPoll totalVariants maxPoll rest st
    else st

/-- The post-loop guard `if (!pollDone || !selectedMediaId)`: the prompt is
skipped (`continue`), i.e. the job is abandoned and the chain not advanced. -/
def jobAbandoned (st : BatchLoopState) : Bool :=
  !st.pollDone || st.sel.selectedMediaId.isNone

def initialBatchState : BatchLoopState :=
  { pollAttempts := 0, pollDone := false
    sel := { selectedMediaId := none, videoUrls := [] }, waits := [] }

/-! ## Clip construction and scene update (src/mẫu/index.js lines 558-620)

`lastEndTime = lastClip ? parseFloat(lastClip.endTime.replace('s','')) : 0`,
`newStartTime = (lastEndTime + 0.000000001).toFixed(9) + 's'`,
`newEndTime = (lastEndTime + 7.000000001).toFixed(9) + 's'`.
JS numbers are modelled as exact rationals: every quantity involved is a
nonnegative multiple of 10^-9 well below 2^32, where IEEE double
arithmetic followed by `toFixed(9)` agrees with exact decimal
arithmetic. -/

structure Clip where
  clipId : String
  startTime : String
  endTime : String
  prompt : String
  deriving Repr, DecidableEq

/-- The 9 fractional digits of `n % 10^9`, most significant first. -/
def pad9 (n : Nat) : List Char :=
  (List.range 9).map fun i => Char.ofNat (48 + n / 10 ^ (8 - i) % 10)

/-- Print `n` nanoseconds as `<seconds>.<9 digits>`. -/
def renderFixed9 (n : Nat) : String :=
  toString (n / 1000000000) ++ "." ++ String.mk (pad9 (n % 1000000000))

/-- `x.toFixed(9)` for the nonnegative on-grid values this system
produces: round to the nearest multiple of 10^-9 and print with exactly 9
fractional digits. -/
def toFixed9 (q : ℚ) : String :=
  renderFixed9 (⌊q * 1000000000 + 1 / 2⌋).toNat

def digitsVal (l : List Char) : Nat :=
  l.foldl (fun a c => a * 10 + (c.toNat - 48)) 0

/-- `.replace('s','')`: JS `String.replace` with a string pattern removes
only the first occurrence. -/
def removeFirstS : List Char → List Char
  | [] => []
  | c :: cs => if c = 's' then cs else c :: removeFirstS cs

/-- Whole-part value, fractional-part value, fractional length of a
fixed-point decimal string. -/
def parseSecondsParts (s : String) : Nat × Nat × Nat :=
  let l := removeFirstS s.toList
  let w := l.takeWhile (· ≠ '.')
  let f := (l.dropWhile (· ≠ '.')).drop 1
  (digitsVal w, digitsVal f, f.length)

/-- `parseFloat(s.replace('s',''))`, modelled for the nonnegative
fixed-point decimal strings (`<digits>` or `<digits>.<digits>`) this
system produces. -/
def parseSeconds (s : String) : ℚ :=
  let p := parseSecondsParts s
  (p.1 : ℚ) + (p.2.1 : ℚ) / (10 : ℚ) ^ p.2.2

/-- Construction of `newClip`.  `initialClips[initialClips.length - 1]` is
`undefined` (falsy) on an empty list, giving `lastEndTime = 0`. -/
def buildNewClip (initialClips : List Clip) (selectedMediaId prompt : String) : Clip :=
  let lastEndTime : ℚ :=
    match initialClips.getLast? with
    | some lastClip => parseSeconds lastClip.endTime
    | none => 0
  { clipId := selectedMediaId
    startTime := toFixed9 (lastEndTime + 1 / 1000000000) ++ "s"
    endTime := toFixed9 (lastEndTime + 7000000001 / 1000000000) ++ "s"
    prompt := prompt }

/-- Local chain state threaded across prompts of `runAutoLogger`:
`initialClips` and `lastClipId` (a JS variable that may hold
`null`/`undefined`, hence `Option`). -/
structure ChainState where
  initialClips : List Clip
  lastClipId : Option String
  deriving Repr, DecidableEq

/-- The scene-update step: build `newClip` and `updatedClips`, post
`project.updateScene`; on success assign `initialClips = updatedClips;
lastClipId = selectedMediaId`, on failure (`catch`) leave both unchanged
and `continue`.  The returned `Bool` is `true` iff the chain advanced. -/
def updateSceneStep (st : ChainState) (selectedMediaId prompt : String)
    (updateSucceeds : Bool) : ChainState × Bool :=
  let newClip := buildNewClip st.initialClips selectedMediaId prompt
  let updatedClips := st.initialClips ++ [newClip]
  if updateSucceeds then
    ({ initialClips := updatedClips, lastClipId := some selectedMediaId }, true)
  else
    (st, false)

/-! ## `/api/veo3/generate-start-end` dedup interaction
(src/server.js lines 3209-3219)

The handler hashes the request body fields, calls `isDuplicateRequest`
(which inserts the fingerprint on a miss) and only then proceeds to token
selection and the provider call; nothing on the failure path (`catch`, or
a failed lane lookup) touches `recentRequests`. -/

inductive HandlerOutcome
  /-- `{ success: false, error: 'Duplicate request detected...' }` -/
  | duplicateRejected
  | providerOk
  /-- the provider call threw; `catch` answers `{ success: false, ... }` -/
  | providerFailed
  deriving Repr, DecidableEq

def generateStartEndDedup (requestHash : String) (now : Int) (m : DedupMap)
    (providerOk : Bool) : HandlerOutcome × DedupMap :=
  match isDuplicateRequest requestHash now m with
  | (true, m') => (.duplicateRejected, m')
  | (false, m') => (if providerOk then .providerOk else .providerFailed, m')

/-! ## Theorems -/

theorem poolAfter_mod (fallback : Token) (pool : List Token) (hN : pool ≠ []) (n : Nat) :
    poolAfter fallback ⟨pool, 0⟩ n = ⟨pool, n % pool.length⟩ := by
  have hlen : pool.length ≠ 0 := by simpa using hN
  induction n with
  | zero => simp [poolAfter]
  | succ n ih =>
      rw [poolAfter, ih]
      simp [getNextToken, hlen, Nat.mod_add_mod]

/-- C4: for a pool of `N` credentials loaded with the cursor at 0, the
first `N` calls to `getNextToken` return the credentials in insertion
order (hence each exactly once), the `(N+1)`-th call returns the first
credential again, and in general every call returns `pool[cursor]` and
advances the cursor mod the pool length. -/
theorem C4_round_robin (fallback : Token) (pool : List Token) (hN : pool ≠ []) :
    (∀ i : Fin pool.length, nthToken fallback ⟨pool, 0⟩ i = pool.get i)
    ∧ nthToken fallback ⟨pool, 0⟩ pool.length = pool.get ⟨0, List.length_pos.mpr hN⟩
    ∧ (∀ s : PoolState, s.tokenPool.length ≠ 0 →
        getNextToken fallback s =
          ((s.tokenPool.get? s.currentTokenIndex).getD fallback,
            { tokenPool := s.tokenPool
              currentTokenIndex := (s.currentTokenIndex + 1) % s.tokenPool.length })) := by
  have hlen : pool.length ≠ 0 := by simpa using hN
  refine ⟨fun i => ?_, ?_, fun s hs => ?_⟩
  · rw [nthToken, poolAfter_mod fallback pool hN]
    simp [getNextToken, hlen, Nat.mod_eq_of_lt i.isLt, List.getElem?_eq_getElem i.isLt]
  · rw [nthToken, poolAfter_mod fallback pool hN]
    simp [getNextToken, hlen, List.getElem?_eq_getElem (List.length_pos.mpr hN)]
  · simp [getNextToken, hs]

theorem C4_round_robin_witness :
    nthToken ⟨"F", "", "", ""⟩ ⟨[⟨"A", "", "", ""⟩, ⟨"B", "", "", ""⟩], 0⟩ 2
      = ⟨"A", "", "", ""⟩ := by
  have h := C4_round_robin ⟨"F", "", "", ""⟩ [⟨"A", "", "", ""⟩, ⟨"B", "", "", ""⟩]
    (by simp)
  simpa using h.2.1

theorem any_key_eq_false {l : DedupMap} {h : String}
    (hfresh : ∀ e ∈ l, e.1 ≠ h) : l.any (fun e => e.1 = h) = false := by
  rw [← Bool.not_eq_true, List.any_eq_true]
  rintro ⟨e, he, hkey⟩
  exact hfresh e he (by simpa using hkey)

theorem purgeOld_sub (now : Int) (m : DedupMap) : purgeOld now m ⊆ m :=
  List.filter_subset' m

/-- A fresh fingerprint is accepted and appended at the current time. -/
theorem isDuplicateRequest_fresh (m : DedupMap) (h : String) (t1 : Int)
    (hfresh : ∀ e ∈ purgeOld t1 m, e.1 ≠ h) :
    isDuplicateRequest h t1 m = (false, purgeOld t1 m ++ [(h, t1)]) := by
  simp [isDuplicateRequest, any_key_eq_false hfresh]

/-- A repeat of the fingerprint within the window is rejected and its
stored timestamp is not refreshed. -/
theorem isDuplicateRequest_repeat (m : DedupMap) (h : String) (t1 t2 : Int)
    (_hfresh : ∀ e ∈ purgeOld t1 m, e.1 ≠ h) (h12 : t2 - t1 ≤ 3000) :
    isDuplicateRequest h t2 (purgeOld t1 m ++ [(h, t1)]) =
      (true, purgeOld t2 (purgeOld t1 m) ++ [(h, t1)]) := by
  have hkeep : purgeOld t2 (purgeOld t1 m ++ [(h, t1)]) =
      purgeOld t2 (purgeOld t1 m) ++ [(h, t1)] := by
    rw [purgeOld, List.filter_append]
    congr 1
    simp [purgeOld, not_lt.mpr h12]
  rw [isDuplicateRequest, hkeep]
  simp

/-- Once the entry has aged out of the window, the fingerprint is
accepted again. -/
theorem isDuplicateRequest_aged (m : DedupMap) (h : String) (t1 t2 t3 : Int)
    (hfresh : ∀ e ∈ purgeOld t1 m, e.1 ≠ h) (h13 : t3 - t1 > 3000) :
    (isDuplicateRequest h t3 (purgeOld t2 (purgeOld t1 m) ++ [(h, t1)])).1 = false := by
  have hdrop : purgeOld t3 (purgeOld t2 (purgeOld t1 m) ++ [(h, t1)]) =
      purgeOld t3 (purgeOld t2 (purgeOld t1 m)) := by
    rw [purgeOld, List.filter_append]
    simp [purgeOld, h13]
  have hfresh3 : ∀ e ∈ purgeOld t3 (purgeOld t2 (purgeOld t1 m)), e.1 ≠ h :=
    fun e he => hfresh e (purgeOld_sub t2 _ (purgeOld_sub t3 _ he))
  rw [isDuplicateRequest, hdrop]
  simp [any_key_eq_false hfresh3]

/-- C5: the deduplicator purges before checking; a payload whose
fingerprint is not present is admitted and recorded at the current time; an
identical payload within 3000 ms is rejected without refreshing the stored
timestamp; and once more than 3000 ms have passed since the first
submission the same payload is admitted again. -/
theorem C5_dedup_window (m : DedupMap) (h : String) (t1 t2 t3 : Int)
    (hfresh : ∀ e ∈ purgeOld t1 m, e.1 ≠ h)
    (h12 : t2 - t1 ≤ 3000) (h13 : t3 - t1 > 3000) :
    isDuplicateRequest h t1 m = (false, purgeOld t1 m ++ [(h, t1)])
    ∧ (isDuplicateRequest h t2 (isDuplicateRequest h t1 m).2).1 = true
    ∧ (isDuplicateRequest h t2 (isDuplicateRequest h t1 m).2).2.filter
        (fun e => e.1 = h) = [(h, t1)]
    ∧ (isDuplicateRequest h t3
        (isDuplicateRequest h t2 (isDuplicateRequest h t1 m).2).2).1 = false := by
  have h1 := isDuplicateRequest_fresh m h t1 hfresh
  have h2 := isDuplicateRequest_repeat m h t1 t2 hfresh h12
  refine ⟨h1, ?_, ?_, ?_⟩
  · rw [h1, h2]
  · rw [h1]
    simp only [h2, List.filter_append]
    have hnone : (purgeOld t2 (purgeOld t1 m)).filter (fun e => e.1 = h) = [] := by
      rw [List.filter_eq_nil_iff]
      intro e he
      simpa using hfresh e (purgeOld_sub t2 _ he)
    simp [hnone]
  · rw [h1]
    simp only [h2]
    exact isDuplicateRequest_aged m h t1 t2 t3 hfresh h13

theorem C5_dedup_window_witness :
    isDuplicateRequest "abc" 1000 [] = (false, [("abc", 1000)])
    ∧ (isDuplicateRequest "abc" 4000 (isDuplicateRequest "abc" 1000 []).2).1 = true
    ∧ (isDuplicateRequest "abc" 4000 (isDuplicateRequest "abc" 1000 []).2).2.filter
        (fun e => e.1 = "abc") = [("abc", 1000)]
    ∧ (isDuplicateRequest "abc" 4001
        (isDuplicateRequest "abc" 4000 (isDuplicateRequest "abc" 1000 []).2).2).1
        = false := by
  have h := C5_dedup_window [] "abc" 1000 4000 4001 (by simp [purgeOld])
    (by norm_num) (by norm_num)
  simpa [purgeOld] using h

/-- C10: the generate-start-end handler inserts the fingerprint during the
dedup check, before the provider call, and a provider failure does not
remove it: an identical request re-sent within 3000 ms of a submission
whose provider call failed is still rejected as a duplicate. -/
theorem C10_dedup_survives_provider_failure (m : DedupMap) (h : String)
    (t1 t2 : Int) (b : Bool)
    (hfresh : ∀ e ∈ purgeOld t1 m, e.1 ≠ h) (h12 : t2 - t1 ≤ 3000) :
    (generateStartEndDedup h t1 m false).1 = .providerFailed
    ∧ (generateStartEndDedup h t2 (generateStartEndDedup h t1 m false).2 b).1
        = .duplicateRejected := by
  have h1 := isDuplicateRequest_fresh m h t1 hfresh
  have h2 := isDuplicateRequest_repeat m h t1 t2 hfresh h12
  have hfst : generateStartEndDedup h t1 m false =
      (.providerFailed, purgeOld t1 m ++ [(h, t1)]) := by
    simp only [generateStartEndDedup, h1]
    rfl
  refine ⟨by rw [hfst], ?_⟩
  rw [hfst]
  simp only [generateStartEndDedup, h2]

theorem C10_dedup_survives_provider_failure_witness :
    (generateStartEndDedup "abc" 1000 [] false).1 = .providerFailed
    ∧ (generateStartEndDedup "abc" 4000
        (generateStartEndDedup "abc" 1000 [] false).2 true).1
        = .duplicateRejected :=
  C10_dedup_survives_provider_failure [] "abc" 1000 4000 true
    (by simp [purgeOld]) (by norm_num)

/-- The stats mutation performed by one retried 429 (the counter updates
of the 429 branch of `axiosWithRetry` before the recursive call). -/
def stats429 (rc : Nat) (acct : String) (stats : RateLimitStats) : RateLimitStats :=
  let stats :=
    if rc = 0 then { stats with totalRequests := stats.totalRequests + 1 } else stats
  let stats :=
    if rc = 0 then { stats with rateLimitedRequests := stats.rateLimitedRequests + 1 }
    else stats
  { stats with
      retriedRequests := stats.retriedRequests + 1
      tokenUsageByAccount := bumpAccountRateLimited acct stats.tokenUsageByAccount }

theorem stats429_failedAfterRetry (rc : Nat) (acct : String) (stats : RateLimitStats) :
    (stats429 rc acct stats).failedAfterRetry = stats.failedAfterRetry := by
  by_cases h : rc = 0 <;> simp [stats429, h]

/-- One 429 step with retries remaining: the executor sleeps for the
computed wait and retries with the attempt counter incremented. -/
theorem axiosWithRetry_429_step (r : Resp) (rest : List Resp) (rc mr : Nat)
    (acct : String) (stats : RateLimitStats) (waits : List Nat)
    (h429 : r.status = 429) (hrc : rc < mr) :
    axiosWithRetry (r :: rest) rc mr acct stats waits =
      axiosWithRetry rest (rc + 1) mr acct (stats429 rc acct stats)
        (waits ++ [match r.retryAfterSec with
                   | some ra => ra * 1000
                   | none => min (1000 * 2 ^ rc) 32000]) := by
  have h2 : is2xx r = false := by simp [is2xx, h429]
  simp [axiosWithRetry, h2, h429, hrc, stats429]

def resp429 : Resp := ⟨429, none, ""⟩

/-- Running `k ≤ maxRetries` consecutive header-less 429 responses from
attempt 0 consumes them all, recording the exponential backoff schedule. -/
theorem axiosWithRetry_429_run (mr : Nat) (acct : String) (stats : RateLimitStats)
    (k : Nat) : ∀ (rest : List Resp), k ≤ mr →
    ∃ stats', axiosWithRetry (List.replicate k resp429 ++ rest) 0 mr acct stats [] =
        axiosWithRetry rest k mr acct stats'
          ((List.range k).map fun i => min (1000 * 2 ^ i) 32000)
      ∧ stats'.failedAfterRetry = stats.failedAfterRetry := by
  induction k with
  | zero => intro rest _; exact ⟨stats, by simp, rfl⟩
  | succ k ih =>
    intro rest hk
    obtain ⟨stats', heq, hfar⟩ := ih (resp429 :: rest) (by omega)
    rw [List.replicate_succ', List.append_assoc, List.singleton_append, heq,
      axiosWithRetry_429_step resp429 rest k mr acct stats' _ rfl (by omega)]
    refine ⟨stats429 k acct stats', ?_, ?_⟩
    · congr 1
      rw [List.range_succ, List.map_append]
      rfl
    · rw [stats429_failedAfterRetry, hfar]

/-- C2: with no `Retry-After` header, the wait before the `k`-th retry of
a 429 response is `min(1000 * 2^k, 32000)` ms — 1000, 2000, 4000, ... ms,
capped at 32000 ms; with a `Retry-After: ra` header the wait is
`ra * 1000` ms instead. -/
theorem C2_backoff_schedule (k mr : Nat) (acct : String) (stats : RateLimitStats)
    (rOk : Resp) (hOk : is2xx rOk = true) (hk : k ≤ mr) :
    (axiosWithRetry (List.replicate k resp429 ++ [rOk]) 0 mr acct stats []).2.2
        = (List.range k).map (fun i => min (1000 * 2 ^ i) 32000)
    ∧ (axiosWithRetry (List.replicate k resp429 ++ [rOk]) 0 mr acct stats []).1
        = .ok rOk
    ∧ (∀ (r : Resp) (rest : List Resp) (rc : Nat) (waits : List Nat) (ra : Nat)
        (stats0 : RateLimitStats), r.status = 429 → r.retryAfterSec = some ra →
        rc < mr →
        axiosWithRetry (r :: rest) rc mr acct stats0 waits =
          axiosWithRetry rest (rc + 1) mr acct (stats429 rc acct stats0)
            (waits ++ [ra * 1000])) := by
  obtain ⟨stats', heq, -⟩ := axiosWithRetry_429_run mr acct stats k [rOk] hk
  have hfin : axiosWithRetry [rOk] k mr acct stats'
      ((List.range k).map fun i => min (1000 * 2 ^ i) 32000) =
      (.ok rOk, (if k = 0 then
          { stats' with totalRequests := stats'.totalRequests + 1 } else stats'),
        (List.range k).map fun i => min (1000 * 2 ^ i) 32000) := by
    simp [axiosWithRetry, hOk]
  refine ⟨?_, ?_, ?_⟩
  · rw [heq, hfin]
  · rw [heq, hfin]
  · intro r rest rc waits ra stats0 h429 hra hrc
    rw [axiosWithRetry_429_step r rest rc mr acct stats0 waits h429 hrc, hra]

theorem C2_backoff_schedule_witness :
    (axiosWithRetry (List.replicate 3 resp429 ++ [⟨200, none, "ok"⟩]) 0 5 "acct"
        ⟨0, 0, 0, 0, []⟩ []).2.2 = [1000, 2000, 4000]
    ∧ (axiosWithRetry (List.replicate 6 resp429 ++ [⟨200, none, "ok"⟩]) 0 10 "acct"
        ⟨0, 0, 0, 0, []⟩ []).2.2 = [1000, 2000, 4000, 8000, 16000, 32000]
    ∧ axiosWithRetry [⟨429, some 7, ""⟩] 0 5 "acct" ⟨0, 0, 0, 0, []⟩ [] =
        axiosWithRetry [] 1 5 "acct" (stats429 0 "acct" ⟨0, 0, 0, 0, []⟩) [7000] := by
  have h3 := C2_backoff_schedule 3 5 "acct" ⟨0, 0, 0, 0, []⟩ ⟨200, none, "ok"⟩
    (by decide) (by norm_num)
  have h6 := C2_backoff_schedule 6 10 "acct" ⟨0, 0, 0, 0, []⟩ ⟨200, none, "ok"⟩
    (by decide) (by norm_num)
  refine ⟨?_, ?_, ?_⟩
  · rw [h3.1]; decide
  · rw [h6.1]; decide
  · simpa using h3.2.2 ⟨429, some 7, ""⟩ [] 0 [] 7 ⟨0, 0, 0, 0, []⟩ rfl rfl
      (by norm_num)

/-- C3 as stated fails on the code: five consecutive 429 responses (with
`maxRetries = 5`) do not make the executor fail — it issues a sixth
attempt and succeeds if that attempt is answered 2xx, with the
failed-after-retry counter untouched. -/
theorem C3_counterexample :
    (axiosWithRetry (List.replicate 5 resp429 ++ [⟨200, none, "ok"⟩]) 0 5 "acct"
        ⟨0, 0, 0, 0, []⟩ []).1 = .ok ⟨200, none, "ok"⟩
    ∧ (axiosWithRetry (List.replicate 5 resp429 ++ [⟨200, none, "ok"⟩]) 0 5 "acct"
        ⟨0, 0, 0, 0, []⟩ []).2.1.failedAfterRetry = 0 := by
  constructor <;> decide

/-- C3 amended: the executor retries only on 429; it fails with the
rate-limit-exceeded error and increments the failed-after-retry counter
upon the `(maxRetries+1)`-th consecutive 429 (i.e. once `maxRetries`
retries are exhausted; 6 consecutive 429s under the default of 5), and any
other non-2xx response fails immediately, no retry, the response with its
status and body propagated. -/
theorem C3_retry_only_on_429 (mr : Nat) (acct : String) (stats : RateLimitStats) :
    ((axiosWithRetry (List.replicate (mr + 1) resp429) 0 mr acct stats []).1
        = .rateLimitError mr
      ∧ (axiosWithRetry (List.replicate (mr + 1) resp429) 0 mr acct stats
          []).2.1.failedAfterRetry = stats.failedAfterRetry + 1)
    ∧ (∀ (r : Resp) (rest : List Resp) (rc : Nat) (waits : List Nat),
        is2xx r = false → r.status ≠ 429 →
        axiosWithRetry (r :: rest) rc mr acct stats waits =
          (.httpError r,
            if rc = 0 then { stats with totalRequests := stats.totalRequests + 1 }
            else stats,
            waits)) := by
  obtain ⟨stats', heq, hfar⟩ := axiosWithRetry_429_run mr acct stats mr [resp429]
    (le_refl mr)
  have hnotlt : ¬ mr < mr := lt_irrefl mr
  constructor
  · rw [List.replicate_succ', heq]
    constructor
    · by_cases hmr : mr = 0 <;> simp [axiosWithRetry, is2xx, resp429, hnotlt, hmr]
    · by_cases hmr : mr = 0 <;>
        simp [axiosWithRetry, is2xx, resp429, hnotlt, hfar, hmr]
  · intro r rest rc waits h2xx hne
    simp [axiosWithRetry, h2xx, hne]

theorem C3_retry_only_on_429_witness :
    (axiosWithRetry (List.replicate 6 resp429) 0 5 "acct" ⟨0, 0, 0, 0, []⟩ []).1
        = .rateLimitError 5
    ∧ (axiosWithRetry (List.replicate 6 resp429) 0 5 "acct"
        ⟨0, 0, 0, 0, []⟩ []).2.1.failedAfterRetry = 1
    ∧ axiosWithRetry [⟨500, none, "boom"⟩] 0 5 "acct" ⟨0, 0, 0, 0, []⟩ [] =
        (.httpError ⟨500, none, "boom"⟩, ⟨1, 0, 0, 0, []⟩, []) := by
  have h := C3_retry_only_on_429 5 "acct" ⟨0, 0, 0, 0, []⟩
  refine ⟨h.1.1, h.1.2, ?_⟩
  have h500 := h.2 ⟨500, none, "boom"⟩ [] 0 [] (by decide) (by decide)
  simpa using h500

/-- C1 as stated fails on the batch poll loop of `runAutoLogger` (one of
the two pollers it names): for a single-variant job, a tick whose one
operation is FAILED with a HIGH_TRAFFIC reason terminates the loop on that
very tick — the failure counts toward the SUCCESSFUL/FAILED completion
tally — and the job is abandoned, even though the operation would have
been SUCCESSFUL on the next tick. -/
theorem C1_counterexample :
    (runBatchPoll 1 120
        [.ops [⟨"MEDIA_GENERATION_STATUS_FAILED", none, none,
                "PUBLIC_ERROR_HIGH_TRAFFIC"⟩],
         .ops [⟨"MEDIA_GENERATION_STATUS_SUCCESSFUL", some "media-1",
                some "url-1", ""⟩]]
        initialBatchState).pollAttempts = 1
    ∧ (runBatchPoll 1 120
        [.ops [⟨"MEDIA_GENERATION_STATUS_FAILED", none, none,
                "PUBLIC_ERROR_HIGH_TRAFFIC"⟩],
         .ops [⟨"MEDIA_GENERATION_STATUS_SUCCESSFUL", some "media-1",
                some "url-1", ""⟩]]
        initialBatchState).pollDone = true
    ∧ jobAbandoned (runBatchPoll 1 120
        [.ops [⟨"MEDIA_GENERATION_STATUS_FAILED", none, none,
                "PUBLIC_ERROR_HIGH_TRAFFIC"⟩],
         .ops [⟨"MEDIA_GENERATION_STATUS_SUCCESSFUL", some "media-1",
                some "url-1", ""⟩]]
        initialBatchState) = true := by
  refine ⟨?_, ?_, ?_⟩ <;> decide

/-- C1 amended: in the single-operation poller `pollOperation`, a FAILED
tick whose error message contains HIGH_TRAFFIC never terminates the poll —
the poller sleeps twice the base interval and keeps polling — and on the
mocked sequence [FAILED(HIGH_TRAFFIC), FAILED(HIGH_TRAFFIC), SUCCESSFUL]
it returns success on the third tick after two doubled waits; the batch
poll loop of `runAutoLogger`, by contrast, counts every FAILED operation
toward its completion tally no matter the failure reason. -/
theorem C1_high_traffic_retry :
    (∀ (o : OpView) (rest : List PollTick) (fuel intervalMs : Nat)
        (waits : List Nat),
      isFailedStatus o.status = true → containsHighTraffic o.errorMsg = true →
      pollOperationGo intervalMs (fuel + 1) (.op o :: rest) waits =
        pollOperationGo intervalMs fuel rest (waits ++ [intervalMs * 2]))
    ∧ pollOperation
        [.op ⟨"MEDIA_GENERATION_STATUS_FAILED", "PUBLIC_ERROR_HIGH_TRAFFIC"⟩,
         .op ⟨"MEDIA_GENERATION_STATUS_FAILED", "PUBLIC_ERROR_HIGH_TRAFFIC"⟩,
         .op ⟨"MEDIA_GENERATION_STATUS_SUCCESSFUL", ""⟩] 2500 120 =
        (.success ⟨"MEDIA_GENERATION_STATUS_SUCCESSFUL", ""⟩, [5000, 5000])
    ∧ (∀ (o : BatchOp) (l : List BatchOp),
        o.status = "MEDIA_GENERATION_STATUS_FAILED" →
        containsHighTraffic o.errorMsg = true →
        tickFailedCount (o :: l) = tickFailedCount l + 1) := by
  refine ⟨?_, ?_, fun o l ho _ => by simp [tickFailedCount, ho]⟩
  · intro o rest fuel intervalMs waits hf hht
    have hs : isSuccessStatus o.status = false := by
      simp only [isFailedStatus, Bool.or_eq_true, decide_eq_true_eq] at hf
      rcases hf with h | h <;> simp [isSuccessStatus, h]
    simp [pollOperationGo, hs, hf, hht]
  · decide

theorem C1_high_traffic_retry_witness :
    pollOperationGo 2500 (119 + 1)
        [.op ⟨"MEDIA_GENERATION_STATUS_FAILED", "PUBLIC_ERROR_HIGH_TRAFFIC"⟩] [] =
      pollOperationGo 2500 119 [] [5000] := by
  have h := C1_high_traffic_retry
  exact h.1 ⟨"MEDIA_GENERATION_STATUS_FAILED", "PUBLIC_ERROR_HIGH_TRAFFIC"⟩ []
    119 2500 [] (by decide) (by decide)

theorem batchTickStep_attempts (tv : Nat) (st : BatchLoopState) (t : BatchTick) :
    (batchTickStep tv st t).pollAttempts = st.pollAttempts + 1 := by
  cases t <;> simp [batchTickStep]

/-- A loop whose `pollDone` flag is set performs no further tick. -/
theorem runBatchPoll_done (tv mp : Nat) (ticks : List BatchTick)
    (st : BatchLoopState) (h : st.pollDone = true) :
    runBatchPoll tv mp ticks st = st := by
  cases ticks <;> simp [runBatchPoll, h]

theorem runBatchPoll_attempts_le (tv mp : Nat) (ticks : List BatchTick) :
    ∀ st : BatchLoopState, st.pollAttempts ≤ mp →
      (runBatchPoll tv mp ticks st).pollAttempts ≤ mp := by
  induction ticks with
  | nil => intro st h; simpa [runBatchPoll] using h
  | cons t rest ih =>
    intro st h
    rw [runBatchPoll]
    by_cases hcond : (decide (st.pollAttempts < mp) && !st.pollDone) = true
    · rw [if_pos hcond]
      have hlt : st.pollAttempts < mp := by
        simp only [Bool.and_eq_true, decide_eq_true_eq] at hcond
        exact hcond.1
      apply ih
      split
      · simpa [batchTickStep_attempts] using hlt
      · simpa [batchTickStep_attempts] using hlt
    · rw [if_neg hcond]
      exact h

theorem runBatchPoll_waits_10000 (tv mp : Nat) (ticks : List BatchTick) :
    ∀ st : BatchLoopState, (∀ w ∈ st.waits, w = 10000) →
      ∀ w ∈ (runBatchPoll tv mp ticks st).waits, w = 10000 := by
  induction ticks with
  | nil => intro st h; simpa [runBatchPoll] using h
  | cons t rest ih =>
    intro st h
    rw [runBatchPoll]
    by_cases hcond : (decide (st.pollAttempts < mp) && !st.pollDone) = true
    · rw [if_pos hcond]
      have hstep : ∀ w ∈ (batchTickStep tv st t).waits, w = 10000 := by
        cases t <;> simpa [batchTickStep] using h
      apply ih
      split
      · intro w hw
        rcases List.mem_append.mp hw with hw | hw
        · exact hstep w hw
        · simpa using hw
      · exact hstep
    · rw [if_neg hcond]
      exact h

/-- C6: the batch poll loop never exceeds its attempt budget (`maxPoll`,
120 in the code); the moment a tick's SUCCESSFUL+FAILED tally reaches the
job's `totalVariants` the loop stops on that very tick, consuming none of
the remaining script; every inter-poll sleep is the fixed 10000 ms; and a
run that ends with `pollDone` still false — the budget exhausted — or with
no selected media id leaves the job abandoned (the prompt is skipped, the
chain not advanced). -/
theorem C6_poll_budget (tv mp : Nat) :
    (∀ (ticks : List BatchTick) (st : BatchLoopState), st.pollAttempts ≤ mp →
      (runBatchPoll tv mp ticks st).pollAttempts ≤ mp)
    ∧ (∀ (l : List BatchOp) (rest : List BatchTick) (st : BatchLoopState),
        st.pollAttempts < mp → st.pollDone = false →
        tickSuccessCount l + tickFailedCount l ≥ tv →
        runBatchPoll tv mp (.ops l :: rest) st = batchTickStep tv st (.ops l)
        ∧ (batchTickStep tv st (.ops l)).pollDone = true
        ∧ (batchTickStep tv st (.ops l)).pollAttempts = st.pollAttempts + 1)
    ∧ (∀ (ticks : List BatchTick) (st : BatchLoopState),
        (∀ w ∈ st.waits, w = 10000) →
        ∀ w ∈ (runBatchPoll tv mp ticks st).waits, w = 10000)
    ∧ (∀ st : BatchLoopState,
        st.pollDone = false ∨ st.sel.selectedMediaId = none →
        jobAbandoned st = true) := by
  refine ⟨fun ticks st => runBatchPoll_attempts_le tv mp ticks st, ?_,
    fun ticks st => runBatchPoll_waits_10000 tv mp ticks st, ?_⟩
  · intro l rest st hlt hnd hdone
    have hstepdone : (batchTickStep tv st (.ops l)).pollDone = true := by
      simp [batchTickStep, hdone]
    refine ⟨?_, hstepdone, batchTickStep_attempts tv st (.ops l)⟩
    have hfin := runBatchPoll_done tv mp rest (batchTickStep tv st (.ops l)) hstepdone
    rw [runBatchPoll, if_pos (by simp [hlt, hnd])]
    simpa [hstepdone] using hfin
  · intro st h
    rcases h with h | h <;> simp [jobAbandoned, h]

theorem C6_poll_budget_witness :
    (runBatchPoll 2 120 [.err, .err, .err] initialBatchState).pollAttempts ≤ 120
    ∧ runBatchPoll 1 120
        [.ops [⟨"MEDIA_GENERATION_STATUS_FAILED", none, none, ""⟩],
         .ops [⟨"MEDIA_GENERATION_STATUS_SUCCESSFUL", some "m", some "u", ""⟩]]
        initialBatchState =
      batchTickStep 1 initialBatchState
        (.ops [⟨"MEDIA_GENERATION_STATUS_FAILED", none, none, ""⟩])
    ∧ jobAbandoned
        (runBatchPoll 1 120 (List.replicate 120 .err) initialBatchState) = true := by
  have h := C6_poll_budget 2 120
  have h1 := C6_poll_budget 1 120
  refine ⟨h.1 [.err, .err, .err] initialBatchState (by decide), ?_, ?_⟩
  · exact (h1.2.1 [⟨"MEDIA_GENERATION_STATUS_FAILED", none, none, ""⟩]
      [.ops [⟨"MEDIA_GENERATION_STATUS_SUCCESSFUL", some "m", some "u", ""⟩]]
      initialBatchState (by decide) (by decide) (by decide)).1
  · exact h1.2.2.2 _ (by decide)

theorem processOp_selected_some (s : BatchSel) (o : BatchOp) (mid : String)
    (h : s.selectedMediaId = some mid) : (processOp s o).selectedMediaId = some mid := by
  rw [processOp]
  repeat' split
  all_goals try simp_all
  all_goals repeat' split
  all_goals simp_all

theorem processOp_not_successful (s : BatchSel) (o : BatchOp)
    (h : o.status ≠ "MEDIA_GENERATION_STATUS_SUCCESSFUL") : processOp s o = s := by
  simp [processOp, h]

theorem processOps_selected_some (ops : List BatchOp) : ∀ (s : BatchSel) (mid : String),
    s.selectedMediaId = some mid → (processOps s ops).selectedMediaId = some mid := by
  induction ops with
  | nil => intro s mid h; simpa [processOps] using h
  | cons o rest ih =>
    intro s mid h
    rw [processOps, List.foldl_cons]
    exact ih (processOp s o) mid (processOp_selected_some s o mid h)

theorem processOp_captures (s : BatchSel) (o : BatchOp) (mid : String)
    (hnone : s.selectedMediaId = none)
    (ho : o.status = "MEDIA_GENERATION_STATUS_SUCCESSFUL")
    (hmid : o.mediaGenerationId = some mid) :
    (processOp s o).selectedMediaId = some mid := by
  rw [processOp, if_pos ho, hmid]
  repeat' split
  all_goals try simp_all
  all_goals repeat' split
  all_goals simp_all

theorem processOp_urls_mono (s : BatchSel) (o : BatchOp) (u : String)
    (h : u ∈ s.videoUrls) : u ∈ (processOp s o).videoUrls := by
  rw [processOp]
  repeat' split
  all_goals try simp_all
  all_goals repeat' split
  all_goals simp_all

theorem processOps_urls_mono (ops : List BatchOp) : ∀ (s : BatchSel) (u : String),
    u ∈ s.videoUrls → u ∈ (processOps s ops).videoUrls := by
  induction ops with
  | nil => intro s u h; simpa [processOps] using h
  | cons o rest ih =>
    intro s u h
    rw [processOps, List.foldl_cons]
    exact ih (processOp s o) u (processOp_urls_mono s o u h)

theorem processOp_url_added (s : BatchSel) (o : BatchOp) (mid u : String)
    (ho : o.status = "MEDIA_GENERATION_STATUS_SUCCESSFUL")
    (hmid : o.mediaGenerationId = some mid) (hu : o.fifeUrl = some u) :
    u ∈ (processOp s o).videoUrls := by
  rw [processOp, if_pos ho, hmid, hu]
  repeat' split
  all_goals try simp_all
  all_goals repeat' split
  all_goals simp_all

/-- C7: once a media id has been selected during polling, no later
SUCCESSFUL operation replaces it; with no selection yet, the first
SUCCESSFUL operation of a tick (given it carries a media id) becomes the
selection; and the video URL of every SUCCESSFUL operation with a media id
is collected regardless of the selection. -/
theorem C7_first_success_wins :
    (∀ (ops : List BatchOp) (s : BatchSel) (mid : String),
      s.selectedMediaId = some mid →
      (processOps s ops).selectedMediaId = some mid)
    ∧ (∀ (pre : List BatchOp) (o : BatchOp) (post : List BatchOp) (s : BatchSel)
        (mid : String),
        s.selectedMediaId = none →
        (∀ p ∈ pre, p.status ≠ "MEDIA_GENERATION_STATUS_SUCCESSFUL") →
        o.status = "MEDIA_GENERATION_STATUS_SUCCESSFUL" →
        o.mediaGenerationId = some mid →
        (processOps s (pre ++ o :: post)).selectedMediaId = some mid)
    ∧ (∀ (pre : List BatchOp) (o : BatchOp) (post : List BatchOp) (s : BatchSel)
        (mid u : String),
        o.status = "MEDIA_GENERATION_STATUS_SUCCESSFUL" →
        o.mediaGenerationId = some mid → o.fifeUrl = some u →
        u ∈ (processOps s (pre ++ o :: post)).videoUrls) := by
  refine ⟨processOps_selected_some, ?_, ?_⟩
  · intro pre o post s mid hnone hpre ho hmid
    have hskip : List.foldl processOp s pre = s := by
      induction pre with
      | nil => rfl
      | cons p rest ih =>
        rw [List.foldl_cons, processOp_not_successful s p (hpre p (by simp))]
        exact ih fun q hq => hpre q (by simp [hq])
    rw [processOps, List.foldl_append, hskip, List.foldl_cons, ← processOps]
    exact processOps_selected_some post (processOp s o) mid
      (processOp_captures s o mid hnone ho hmid)
  · intro pre o post s mid u ho hmid hu
    rw [processOps, List.foldl_append, List.foldl_cons, ← processOps]
    exact processOps_urls_mono post (processOp (List.foldl processOp s pre) o) u
      (processOp_url_added (List.foldl processOp s pre) o mid u ho hmid hu)

theorem C7_first_success_wins_witness :
    (processOps
        { selectedMediaId := none, videoUrls := [] }
        [⟨"MEDIA_GENERATION_STATUS_PENDING", none, none, ""⟩,
         ⟨"MEDIA_GENERATION_STATUS_SUCCESSFUL", some "m1", some "u1", ""⟩,
         ⟨"MEDIA_GENERATION_STATUS_SUCCESSFUL", some "m2", some "u2", ""⟩]).selectedMediaId
      = some "m1"
    ∧ "u2" ∈ (processOps
        { selectedMediaId := none, videoUrls := [] }
        [⟨"MEDIA_GENERATION_STATUS_PENDING", none, none, ""⟩,
         ⟨"MEDIA_GENERATION_STATUS_SUCCESSFUL", some "m1", some "u1", ""⟩,
         ⟨"MEDIA_GENERATION_STATUS_SUCCESSFUL", some "m2", some "u2", ""⟩]).videoUrls := by
  have h := C7_first_success_wins
  constructor
  · have := h.2.1 [⟨"MEDIA_GENERATION_STATUS_PENDING", none, none, ""⟩]
      ⟨"MEDIA_GENERATION_STATUS_SUCCESSFUL", some "m1", some "u1", ""⟩
      [⟨"MEDIA_GENERATION_STATUS_SUCCESSFUL", some "m2", some "u2", ""⟩]
      { selectedMediaId := none, videoUrls := [] } "m1"
      rfl (by intro p hp; simp at hp; simp [hp]) rfl rfl
    simpa using this
  · have := h.2.2
      [⟨"MEDIA_GENERATION_STATUS_PENDING", none, none, ""⟩,
       ⟨"MEDIA_GENERATION_STATUS_SUCCESSFUL", some "m1", some "u1", ""⟩]
      ⟨"MEDIA_GENERATION_STATUS_SUCCESSFUL", some "m2", some "u2", ""⟩
      [] { selectedMediaId := none, videoUrls := [] } "m2" "u2" rfl rfl rfl
    simpa using this

/-- `toFixed(9)` on an exact multiple of 10^-9 prints that multiple. -/
theorem toFixed9_grid (m : Nat) :
    toFixed9 ((m : ℚ) / 1000000000) = renderFixed9 m := by
  rw [toFixed9]
  congr 1
  rw [div_mul_cancel₀ _ (by norm_num : (1000000000 : ℚ) ≠ 0),
    show ((m : ℚ) = ((m : ℤ) : ℚ)) from by push_cast; ring, Int.floor_int_add]
  norm_num

theorem pad9_length (n : Nat) : (String.mk (pad9 n)).length = 9 := by
  simp [pad9, String.length]

/-- C8: the appended clip's `startTime` is the previous last clip's
`endTime` plus 10^-9 s and its `endTime` is that `startTime` plus exactly
7 s (grid index `n` counts nanoseconds: `n + 1`, then `(n + 1) + 7*10^9`);
an empty prior list uses 0 as the previous `endTime`; and both fields are
rendered as decimal-second strings with exactly 9 fractional digits and a
trailing `s`. -/
theorem C8_clip_times (clips : List Clip) (c : Clip) (n : Nat) (mid p : String)
    (hlast : clips.getLast? = some c)
    (hparse : parseSeconds c.endTime = (n : ℚ) / 1000000000) :
    buildNewClip clips mid p =
      { clipId := mid
        startTime := renderFixed9 (n + 1) ++ "s"
        endTime := renderFixed9 ((n + 1) + 7000000000) ++ "s"
        prompt := p }
    ∧ buildNewClip [] mid p =
      { clipId := mid
        startTime := renderFixed9 1 ++ "s"
        endTime := renderFixed9 (1 + 7000000000) ++ "s"
        prompt := p }
    ∧ (∀ k : Nat, renderFixed9 k =
        toString (k / 1000000000) ++ "." ++ String.mk (pad9 (k % 1000000000))
        ∧ (String.mk (pad9 (k % 1000000000))).length = 9) := by
  refine ⟨?_, ?_, fun k => ⟨rfl, pad9_length _⟩⟩
  · rw [buildNewClip, hlast]
    simp only [hparse]
    have hstart : (n : ℚ) / 1000000000 + 1 / 1000000000 =
        ((n + 1 : Nat) : ℚ) / 1000000000 := by push_cast; ring
    have hend : (n : ℚ) / 1000000000 + 7000000001 / 1000000000 =
        (((n + 1) + 7000000000 : Nat) : ℚ) / 1000000000 := by push_cast; ring
    rw [hstart, hend, toFixed9_grid, toFixed9_grid]
  · rw [buildNewClip]
    have hstart : (0 : ℚ) + 1 / 1000000000 = ((1 : Nat) : ℚ) / 1000000000 := by
      push_cast; ring
    have hend : (0 : ℚ) + 7000000001 / 1000000000 =
        (((1 + 7000000000 : Nat)) : ℚ) / 1000000000 := by push_cast; ring
    simp only [List.getLast?_nil]
    rw [hstart, hend, toFixed9_grid, toFixed9_grid]

theorem C8_clip_times_witness :
    (buildNewClip [⟨"c1", "0.000000001s", "7.000000001s", "p1"⟩] "m2" "p2").startTime
        = "7.000000002s"
    ∧ (buildNewClip [⟨"c1", "0.000000001s", "7.000000001s", "p1"⟩] "m2" "p2").endTime
        = "14.000000002s" := by
  have hp : parseSeconds "7.000000001s" = ((7000000001 : Nat) : ℚ) / 1000000000 := by
    rw [parseSeconds, show parseSecondsParts "7.000000001s" = (7, 1, 9) from by decide]
    push_cast
    norm_num
  have h := C8_clip_times [⟨"c1", "0.000000001s", "7.000000001s", "p1"⟩]
    ⟨"c1", "0.000000001s", "7.000000001s", "p1"⟩ 7000000001 "m2" "p2" (by decide) hp
  rw [h.1]
  exact ⟨by decide, by decide⟩

/-- C9: if the `project.updateScene` call fails, the local clip list and
the last-clip-id anchor are left exactly as they were and the chain does
not advance; only on success does the local list become the appended list
and the anchor become the new clip's id. -/
theorem C9_scene_update_atomicity (st : ChainState) (mid p : String) :
    updateSceneStep st mid p false = (st, false)
    ∧ updateSceneStep st mid p true =
        ({ initialClips := st.initialClips ++ [buildNewClip st.initialClips mid p]
           lastClipId := some mid }, true) := by
  constructor <;> simp [updateSceneStep]

end Veo
